import Mathlib

/-!
Shallow embedding of the fitness-tracker module:
  * package `spentcalories` (src/internal/spentcalories/spentcalories.go)
  * package `daysteps` (src/unnamed/part_000)

Go `float64` values are modelled as exact rationals (ℚ); Go `int` and
`time.Duration` (int64 nanoseconds) are modelled as ℤ.  Overflow of the
64-bit duration accumulator in `time.ParseDuration` is elided (no claim
involves durations near 2^63 ns); `strconv.Atoi`'s 64-bit range check is
kept.  String formatting (`fmt.Sprintf`) is out of scope per the spec, so
the report-producing entry points return the structured values they would
format (`none` models the empty string returned on failure).
-/

namespace Tracker

/-- Model of a Go `error` value, keeping the wrapping structure produced by
`errors.New` and `fmt.Errorf("stage: %w", err)`. -/
inductive GoError where
  | new (msg : String) : GoError
  | wrap (stage : String) (cause : GoError) : GoError
  deriving DecidableEq, Repr

/-- Whether an error was produced by wrapping another error
(`fmt.Errorf` with `%w`), as opposed to a fresh `errors.New`. -/
def GoError.isWrap : GoError → Bool
  | .wrap _ _ => true
  | .new _ => false

/-- Model of Go `strings.Split(s, ",")`, over the character list of the
string: splits around every comma, producing `count(commas)+1` fields. -/
def splitComma : List Char → List (List Char)
  | [] => [[]]
  | c :: rest =>
    if c = ',' then [] :: splitComma rest
    else
      match splitComma rest with
      | [] => [[c]]
      | f :: fs => (c :: f) :: fs

/-- Modelled Go stdlib `strconv.Atoi`: optional sign, then decimal digits;
fails on an empty string, a stray character, or 64-bit overflow. -/
def goAtoi (cs : List Char) : Option ℤ :=
  match cs with
  | [] => none
  | c :: rest =>
    let (neg, digits) :=
      if c = '-' then (true, rest)
      else if c = '+' then (false, rest)
      else (false, cs)
    if digits = [] then none
    else if digits.all Char.isDigit then
      let n : ℕ := digits.foldl (fun acc d => acc * 10 + (d.toNat - 48)) 0
      let v : ℤ := if neg then -(n : ℤ) else (n : ℤ)
      if -(2 ^ 63) ≤ v ∧ v ≤ 2 ^ 63 - 1 then some v else none
    else none

/-- Leading-digit scanner of `time.ParseDuration`: consumes a maximal
decimal-digit run, returning its value and the rest. -/
def leadingInt : List Char → ℕ → ℕ × List Char
  | [], acc => (acc, [])
  | c :: rest, acc =>
    if c.isDigit then leadingInt rest (acc * 10 + (c.toNat - 48))
    else (acc, c :: rest)

/-- Fraction scanner of `time.ParseDuration`: consumes a maximal digit run
after the decimal point, returning its value, the power-of-ten scale, and
the rest. -/
def leadingFraction : List Char → ℕ → ℕ → ℕ × ℕ × List Char
  | [], f, scale => (f, scale, [])
  | c :: rest, f, scale =>
    if c.isDigit then leadingFraction rest (f * 10 + (c.toNat - 48)) (scale * 10)
    else (f, scale, c :: rest)

/-- Unit table of `time.ParseDuration`, in nanoseconds. -/
def unitNs (u : List Char) : Option ℕ :=
  if u = "ns".data then some 1
  else if u = "us".data ∨ u = "µs".data ∨ u = "μs".data then some 1000
  else if u = "ms".data then some 1000000
  else if u = "s".data then some 1000000000
  else if u = "m".data then some 60000000000
  else if u = "h".data then some 3600000000000
  else none

/-- Segment loop of `time.ParseDuration`: repeatedly reads
`<digits>[.<digits>]<unit>` and sums the nanosecond values.  Each
successful pass consumes the nonempty unit, so the fuel (set to one more
than the input length by the caller) is never exhausted.  The fractional
part contributes `⌊f·unit/scale⌋` nanoseconds (Go computes it in float64;
exact floor arithmetic is used here, which agrees on all claim-relevant
inputs). -/
def durLoop : ℕ → List Char → Option ℕ
  | 0, _ => none
  | _ + 1, [] => some 0
  | fuel + 1, c :: cs =>
    if ¬(c = '.' ∨ c.isDigit) then none
    else
      let (v, rest1) := leadingInt (c :: cs) 0
      let pre : Bool := rest1.length ≠ (c :: cs).length
      let (f, scale, post, rest2) :=
        match rest1 with
        | '.' :: tail =>
          let (f, scale, r) := leadingFraction tail 0 1
          (f, scale, (r.length ≠ tail.length : Bool), r)
        | _ => (0, 1, false, rest1)
      if pre = false ∧ post = false then none
      else
        let unitChars := rest2.takeWhile (fun ch => ¬(ch = '.' ∨ ch.isDigit))
        let rest3 := rest2.dropWhile (fun ch => ¬(ch = '.' ∨ ch.isDigit))
        if unitChars = [] then none
        else
          match unitNs unitChars with
          | none => none
          | some u =>
            let seg := v * u + f * u / scale
            match durLoop fuel rest3 with
            | none => none
            | some acc => some (seg + acc)

/-- Modelled Go stdlib `time.ParseDuration`: optional sign, the special
case `"0"`, then one or more `<digits>[.<digits>]<unit>` segments.
Returns the duration in nanoseconds. -/
def goParseDuration (cs : List Char) : Option ℤ :=
  let (neg, cs1) :=
    match cs with
    | '-' :: r => (true, r)
    | '+' :: r => (false, r)
    | _ => (false, cs)
  if cs1 = ['0'] then some 0
  else if cs1 = [] then none
  else
    match durLoop (cs1.length + 1) cs1 with
    | none => none
    | some n => some (if neg then -(n : ℤ) else (n : ℤ))

/-- `time.Duration.Hours()`: nanoseconds to hours. -/
def durationHours (d : ℤ) : ℚ := (d : ℚ) / 3600000000000

/-- `time.Duration.Minutes()`: nanoseconds to minutes. -/
def durationMinutes (d : ℤ) : ℚ := (d : ℚ) / 60000000000

/-! Constants of package `spentcalories`. -/

def mInKm : ℚ := 1000
def minInH : ℚ := 60
def stepLengthCoefficient : ℚ := 0.45
def walkingCaloriesCoefficient : ℚ := 0.5

/-- `spentcalories.distance`: distance in kilometers from a step count and
a height in meters (stride modelled as 45% of height). -/
def distance (steps : ℤ) (height : ℚ) : ℚ :=
  let length := height * stepLengthCoefficient
  (steps : ℚ) * length / mInKm

/-- `spentcalories.meanSpeed`: mean speed in km/h; 0 when the duration is
not positive. -/
def meanSpeed (steps : ℤ) (height : ℚ) (duration : ℤ) : ℚ :=
  if duration ≤ 0 then 0
  else
    let dist := distance steps height
    dist / durationHours duration

/-- `spentcalories.parseTraining`: parses `"<steps>,<activity>,<duration>"`.
The cause inside the step-extraction wrap stands for the `strconv` error. -/
def parseTraining (data : String) : Except GoError (ℤ × String × ℤ) :=
  match splitComma data.data with
  | [p0, p1, p2] =>
    match goAtoi p0 with
    | none => .error (.wrap "failed to extract steps" (.new "strconv error"))
    | some steps =>
      if steps ≤ 0 then .error (.new "steps is not positive")
      else
        let activity := String.mk p1
        match goParseDuration p2 with
        | none => .error (.wrap "failed to extract duration" (.new "time error"))
        | some d =>
          if d ≤ 0 then .error (.new "duration is not positive")
          else .ok (steps, activity, d)
  | _ => .error (.new "bad data format")

/-- `spentcalories.RunningSpentCalories`: calories burnt running; the pair
mirrors Go's `(float64, error)` return. -/
def RunningSpentCalories (steps : ℤ) (weight height : ℚ) (duration : ℤ) :
    ℚ × Option GoError :=
  if steps ≤ 0 then (0, some (.new "steps is not positive"))
  else if weight ≤ 0 then (0, some (.new "weight is not positive"))
  else if duration ≤ 0 then (0, some (.new "duration is not positive"))
  else
    let ms := meanSpeed steps height duration
    ((weight * ms * durationMinutes duration) / minInH, none)

/-- `spentcalories.WalkingSpentCalories`: calories burnt walking. -/
def WalkingSpentCalories (steps : ℤ) (weight height : ℚ) (duration : ℤ) :
    ℚ × Option GoError :=
  if steps ≤ 0 then (0, some (.new "steps is not positive"))
  else if weight ≤ 0 then (0, some (.new "weight is not positive"))
  else if height ≤ 0 then (0, some (.new "height is not positive"))
  else
    let ms := meanSpeed steps height duration
    let calories := weight * ms * durationMinutes duration
    let caloriesSpent := calories / minInH
    (caloriesSpent * walkingCaloriesCoefficient, none)

/-- The values `spentcalories.TrainingInfo` interpolates into its 5-line
report template on success. -/
structure TrainingReport where
  activity : String
  durationH : ℚ
  distanceKm : ℚ
  speedKmh : ℚ
  calories : ℚ
  deriving DecidableEq, Repr

/-- `spentcalories.TrainingInfo`: the multi-activity entry point; the pair
mirrors Go's `(string, error)` return, with `none` in the first component
for the empty string. -/
def TrainingInfo (data : String) (weight height : ℚ) :
    Option TrainingReport × Option GoError :=
  match parseTraining data with
  | .error e => (none, some (.wrap "parseTraining" e))
  | .ok (steps, activity, d) =>
    if activity = "Бег" then
      match RunningSpentCalories steps weight height d with
      | (_, some e) => (none, some (.wrap "RunningSpentCalories" e))
      | (calories, none) =>
        (some ⟨activity, durationHours d, distance steps height,
               meanSpeed steps height d, calories⟩, none)
    else if activity = "Ходьба" then
      match WalkingSpentCalories steps weight height d with
      | (_, some e) => (none, some (.wrap "WalkingSpentCalories" e))
      | (calories, none) =>
        (some ⟨activity, durationHours d, distance steps height,
               meanSpeed steps height d, calories⟩, none)
    else (none, some (.new "неизвестный тип тренировки"))

/-! Package `daysteps`. -/

def stepLength : ℚ := 0.65
def daysteps.mInKm : ℚ := 1000

/-- `daysteps.parsePackage`: parses `"<steps>,<duration>"`. -/
def parsePackage (data : String) : Except GoError (ℤ × ℤ) :=
  match splitComma data.data with
  | [p0, p1] =>
    match goAtoi p0 with
    | none => .error (.wrap "failed to extract steps" (.new "strconv error"))
    | some steps =>
      if steps ≤ 0 then .error (.new "steps must be positive")
      else
        match goParseDuration p1 with
        | none => .error (.wrap "failed to extract duration" (.new "time error"))
        | some d =>
          if d ≤ 0 then .error (.new "duration is not positive")
          else .ok (steps, d)
  | _ => .error (.new "bad data format")

/-- The values `daysteps.DayActionInfo` interpolates into its 3-line report
on success. -/
structure DayReport where
  steps : ℤ
  kilometers : ℚ
  calories : ℚ
  deriving DecidableEq, Repr

/-- `daysteps.DayActionInfo`: the walking-only entry point; `none` models
the empty string returned after logging on any failure. -/
def DayActionInfo (data : String) (weight height : ℚ) : Option DayReport :=
  match parsePackage data with
  | .error _ => none
  | .ok (steps, d) =>
    if steps ≤ 0 then none
    else
      let meters := (steps : ℚ) * stepLength
      let kilometers := meters / daysteps.mInKm
      match WalkingSpentCalories steps weight height d with
      | (_, some _) => none
      | (calories, none) => some ⟨steps, kilometers, calories⟩

/-! Helper lemmas shared by the claim theorems. -/

/-- A successful `parseTraining` yields a positive step count and a
positive duration. -/
lemma parseTraining_pos {data : String} {s : ℤ} {a : String} {d : ℤ}
    (h : parseTraining data = .ok (s, a, d)) : 0 < s ∧ 0 < d := by
  unfold parseTraining at h
  rcases hs : splitComma data.data with _ | ⟨p0, _ | ⟨p1, _ | ⟨p2, _ | _⟩⟩⟩ <;>
    simp only [hs] at h <;> try exact absurd h (by simp)
  rcases ha : goAtoi p0 with _ | steps <;> simp only [ha] at h
  · exact absurd h (by simp)
  split at h
  · exact absurd h (by simp)
  rcases hd : goParseDuration p2 with _ | dur <;> simp only [hd] at h
  · exact absurd h (by simp)
  split at h
  · exact absurd h (by simp)
  simp only [Except.ok.injEq, Prod.mk.injEq] at h
  obtain ⟨h1, -, h3⟩ := h
  omega

/-- A successful `parsePackage` yields a positive step count and a
positive duration. -/
lemma parsePackage_pos {data : String} {s : ℤ} {d : ℤ}
    (h : parsePackage data = .ok (s, d)) : 0 < s ∧ 0 < d := by
  unfold parsePackage at h
  rcases hs : splitComma data.data with _ | ⟨p0, _ | ⟨p1, _ | _⟩⟩ <;>
    simp only [hs] at h <;> try exact absurd h (by simp)
  rcases ha : goAtoi p0 with _ | steps <;> simp only [ha] at h
  · exact absurd h (by simp)
  split at h
  · exact absurd h (by simp)
  rcases hd : goParseDuration p1 with _ | dur <;> simp only [hd] at h
  · exact absurd h (by simp)
  split at h
  · exact absurd h (by simp)
  simp only [Except.ok.injEq, Prod.mk.injEq] at h
  obtain ⟨h1, h2⟩ := h
  omega

/-- Concrete evaluation: `parsePackage "1000,1h"`. -/
lemma parsePackage_1000_1h : parsePackage "1000,1h" = .ok (1000, 3600000000000) := by
  unfold parsePackage
  norm_num [show splitComma "1000,1h".data = ["1000".data, "1h".data] from by decide,
    show goAtoi "1000".data = some 1000 from by decide,
    show goParseDuration "1h".data = some 3600000000000 from by decide]

/-- Concrete evaluation: `DayActionInfo "1000,1h" 70 1.75`. -/
lemma DayActionInfo_1000_1h :
    DayActionInfo "1000,1h" 70 1.75 = some ⟨1000, 0.65, 27.5625⟩ := by
  unfold DayActionInfo
  rw [parsePackage_1000_1h]
  norm_num [WalkingSpentCalories, meanSpeed, distance, durationHours,
    durationMinutes, mInKm, minInH, stepLengthCoefficient,
    walkingCaloriesCoefficient, stepLength, daysteps.mInKm]

/-- C1 counterexample: at raw string `"1000,1h"`, weight 70, height 1.75,
`DayActionInfo` succeeds and reports 0.65 km, while the Metrics
Calculator's formula `distance 1000 1.75` gives 0.7875 km. -/
theorem claim_C1_distance_formula_cex :
    (DayActionInfo "1000,1h" 70 1.75).map DayReport.kilometers = some 0.65 ∧
    distance 1000 1.75 = 0.7875 ∧
    (0.65 : ℚ) ≠ 0.7875 := by
  refine ⟨?_, ?_, by norm_num⟩
  · rw [DayActionInfo_1000_1h]; rfl
  · norm_num [distance, stepLengthCoefficient, mInKm]

/-- C1 amended: whenever `DayActionInfo` succeeds, the distance it reports
equals steps × 0.65 / 1000 kilometers — a fixed 0.65 m stride, independent
of the caller's height — where steps is the parsed step count, not the
height-based Metrics Calculator formula. -/
theorem claim_C1_distance_fixed_stride (data : String) (w h : ℚ) (r : DayReport)
    (hok : DayActionInfo data w h = some r) :
    (∃ d, parsePackage data = .ok (r.steps, d)) ∧
    r.kilometers = (r.steps : ℚ) * 0.65 / 1000 := by
  unfold DayActionInfo at hok
  rcases hp : parsePackage data with e | ⟨s, d⟩ <;> simp only [hp] at hok
  · exact absurd hok (by simp)
  split at hok
  · exact absurd hok (by simp)
  rcases hw : WalkingSpentCalories s w h d with ⟨cal, _ | e⟩ <;>
    simp only [hw] at hok
  · simp only [Option.some.injEq] at hok
    subst hok
    refine ⟨⟨d, ?_⟩, ?_⟩
    · simp [hp]
    · norm_num [stepLength, daysteps.mInKm]
  · exact absurd hok (by simp)

/-- Witness for the amended C1 at `"1000,1h"`, weight 70, height 1.75. -/
theorem claim_C1_distance_fixed_stride_witness :
    (∃ d, parsePackage "1000,1h" =
      .ok ((DayReport.mk 1000 0.65 27.5625).steps, d)) ∧
    (DayReport.mk 1000 0.65 27.5625).kilometers =
      ((DayReport.mk 1000 0.65 27.5625).steps : ℚ) * 0.65 / 1000 :=
  claim_C1_distance_fixed_stride "1000,1h" 70 1.75 ⟨1000, 0.65, 27.5625⟩
    DayActionInfo_1000_1h

/-- A successful `RunningSpentCalories` call implies positive steps, weight
and duration, and fixes the returned value. -/
lemma running_success {s : ℤ} {w h : ℚ} {d : ℤ} {cal : ℚ}
    (hr : RunningSpentCalories s w h d = (cal, none)) :
    0 < s ∧ 0 < w ∧ 0 < d ∧
    cal = w * meanSpeed s h d * durationMinutes d / minInH := by
  unfold RunningSpentCalories at hr
  split at hr
  · exact absurd hr (by simp)
  split at hr
  · exact absurd hr (by simp)
  split at hr
  · exact absurd hr (by simp)
  simp only [Prod.mk.injEq] at hr
  refine ⟨by omega, by linarith, by omega, hr.1.symm⟩

/-- A successful `WalkingSpentCalories` call implies positive steps, weight
and height, and fixes the returned value. -/
lemma walking_success {s : ℤ} {w h : ℚ} {d : ℤ} {cal : ℚ}
    (hw : WalkingSpentCalories s w h d = (cal, none)) :
    0 < s ∧ 0 < w ∧ 0 < h ∧
    cal = w * meanSpeed s h d * durationMinutes d / minInH *
      walkingCaloriesCoefficient := by
  unfold WalkingSpentCalories at hw
  split at hw
  · exact absurd hw (by simp)
  split at hw
  · exact absurd hw (by simp)
  split at hw
  · exact absurd hw (by simp)
  simp only [Prod.mk.injEq] at hw
  refine ⟨by omega, by linarith, by linarith, hw.1.symm⟩

/-- Nonnegative steps and height give a nonnegative distance. -/
lemma distance_nonneg {s : ℤ} {h : ℚ} (hs : 0 ≤ s) (hh : 0 ≤ h) :
    0 ≤ distance s h := by
  unfold distance stepLengthCoefficient mInKm
  have hs' : (0 : ℚ) ≤ (s : ℚ) := by exact_mod_cast hs
  have : (0 : ℚ) ≤ h * 0.45 := by positivity
  positivity

/-- Nonnegative steps and height give a nonnegative mean speed. -/
lemma meanSpeed_nonneg {s : ℤ} {h : ℚ} {d : ℤ} (hs : 0 ≤ s) (hh : 0 ≤ h) :
    0 ≤ meanSpeed s h d := by
  unfold meanSpeed
  split
  · exact le_refl 0
  · have hd : (0 : ℚ) ≤ durationHours d := by
      unfold durationHours
      have : (0 : ℤ) ≤ d := by omega
      have : (0 : ℚ) ≤ (d : ℚ) := by exact_mod_cast this
      positivity
    exact div_nonneg (distance_nonneg hs hh) hd

/-- Concrete evaluation: `parseTraining "1000,Бег,1h"`. -/
lemma parseTraining_run_1h :
    parseTraining "1000,Бег,1h" = .ok (1000, "Бег", 3600000000000) := by
  unfold parseTraining
  norm_num [show splitComma "1000,Бег,1h".data =
      ["1000".data, "Бег".data, "1h".data] from by decide,
    show goAtoi "1000".data = some 1000 from by decide,
    show goParseDuration "1h".data = some 3600000000000 from by decide]

/-- Concrete evaluation: `TrainingInfo "1000,Бег,1h" 70 (-1)` — the running
branch succeeds with a negative height, yielding negative metrics. -/
lemma TrainingInfo_run_neg_height :
    TrainingInfo "1000,Бег,1h" 70 (-1) =
      (some ⟨"Бег", 1, -9/20, -9/20, -63/2⟩, none) := by
  unfold TrainingInfo
  rw [parseTraining_run_1h]
  norm_num [RunningSpentCalories, meanSpeed, distance, durationHours,
    durationMinutes, mInKm, minInH, stepLengthCoefficient]

/-- C2 counterexample: with caller-supplied height −1, `TrainingInfo` on
`"1000,Бег,1h"` returns without error, yet the derived distance, mean
speed and calories are all negative (the running path never validates
height). -/
theorem claim_C2_metrics_nonneg_cex :
    TrainingInfo "1000,Бег,1h" 70 (-1) =
      (some ⟨"Бег", 1, -9/20, -9/20, -63/2⟩, none) ∧
    (-9/20 : ℚ) < 0 ∧ (-63/2 : ℚ) < 0 :=
  ⟨TrainingInfo_run_neg_height, by norm_num, by norm_num⟩

/-- C2 amended: for every input on which `TrainingInfo` returns without
error, provided the caller-supplied height is nonnegative, the derived
distance, mean speed and calories are all ≥ 0 (the walking branch enforces
height > 0 itself; the running branch needs the hypothesis). -/
theorem claim_C2_metrics_nonneg (data : String) (w h : ℚ) (r : TrainingReport)
    (hh : 0 ≤ h) (hok : TrainingInfo data w h = (some r, none)) :
    0 ≤ r.distanceKm ∧ 0 ≤ r.speedKmh ∧ 0 ≤ r.calories := by
  unfold TrainingInfo at hok
  rcases hp : parseTraining data with e | ⟨s, a, d⟩ <;> simp only [hp] at hok
  · exact absurd hok (by simp)
  obtain ⟨hs, hd⟩ := parseTraining_pos hp
  have hmin : (0 : ℚ) ≤ durationMinutes d := by
    unfold durationMinutes
    have : (0 : ℚ) ≤ (d : ℚ) := by exact_mod_cast le_of_lt hd
    positivity
  split at hok
  · rcases hr : RunningSpentCalories s w h d with ⟨cal, _ | e⟩ <;>
      simp only [hr] at hok
    · simp only [Prod.mk.injEq, Option.some.injEq] at hok
      obtain ⟨hok, -⟩ := hok
      subst hok
      obtain ⟨-, hw0, -, hcal⟩ := running_success hr
      have hms : 0 ≤ meanSpeed s h d := meanSpeed_nonneg (le_of_lt hs) hh
      refine ⟨distance_nonneg (le_of_lt hs) hh, hms, ?_⟩
      rw [hcal]
      unfold minInH
      positivity
    · exact absurd hok (by simp)
  split at hok
  · rcases hw : WalkingSpentCalories s w h d with ⟨cal, _ | e⟩ <;>
      simp only [hw] at hok
    · simp only [Prod.mk.injEq, Option.some.injEq] at hok
      obtain ⟨hok, -⟩ := hok
      subst hok
      obtain ⟨-, hw0, -, hcal⟩ := walking_success hw
      have hms : 0 ≤ meanSpeed s h d := meanSpeed_nonneg (le_of_lt hs) hh
      refine ⟨distance_nonneg (le_of_lt hs) hh, hms, ?_⟩
      rw [hcal]
      unfold minInH walkingCaloriesCoefficient
      positivity
    · exact absurd hok (by simp)
  · exact absurd hok (by simp)

/-- Witness for the amended C2 at `"1000,Бег,1h"`, weight 70, height 1.75. -/
theorem claim_C2_metrics_nonneg_witness :
    0 ≤ (TrainingReport.mk "Бег" 1 (63/80) (63/80) (441/8)).distanceKm ∧
    0 ≤ (TrainingReport.mk "Бег" 1 (63/80) (63/80) (441/8)).speedKmh ∧
    0 ≤ (TrainingReport.mk "Бег" 1 (63/80) (63/80) (441/8)).calories :=
  claim_C2_metrics_nonneg "1000,Бег,1h" 70 1.75 ⟨"Бег", 1, 63/80, 63/80, 441/8⟩
    (by norm_num)
    (by unfold TrainingInfo
        rw [parseTraining_run_1h]
        norm_num [RunningSpentCalories, meanSpeed, distance, durationHours,
          durationMinutes, mInKm, minInH, stepLengthCoefficient])

/-- Concrete evaluation: `parseTraining "1,Плавание,1h"`. -/
lemma parseTraining_swim :
    parseTraining "1,Плавание,1h" = .ok (1, "Плавание", 3600000000000) := by
  unfold parseTraining
  norm_num [show splitComma "1,Плавание,1h".data =
      ["1".data, "Плавание".data, "1h".data] from by decide,
    show goAtoi "1".data = some 1 from by decide,
    show goParseDuration "1h".data = some 3600000000000 from by decide]

/-- Concrete evaluation: `parseTraining "abc"` fails on field count. -/
lemma parseTraining_abc :
    parseTraining "abc" = .error (.new "bad data format") := by
  unfold parseTraining
  norm_num [show splitComma "abc".data = ["abc".data] from by decide]

/-- C3 counterexample: on the unknown activity `"Плавание"`, `TrainingInfo`
fails with the fresh error `errors.New("неизвестный тип тренировки")`,
which carries no stage name and wraps no cause. -/
theorem claim_C3_wrapped_error_cex :
    TrainingInfo "1,Плавание,1h" 70 1.75 =
      (none, some (.new "неизвестный тип тренировки")) ∧
    (GoError.new "неизвестный тип тренировки").isWrap = false := by
  refine ⟨?_, rfl⟩
  unfold TrainingInfo
  rw [parseTraining_swim]
  simp only []
  rw [if_neg (by decide), if_neg (by decide)]

/-- C3 amended: every failure of `TrainingInfo` pairs the empty string with
a non-nil error; failures of the parsing stage or of a calorie stage are
wrapped with that stage's name and preserve the original error as cause,
while the unknown-activity failure is a fresh, unwrapped error. -/
theorem claim_C3_error_structure (data : String) (w h : ℚ) (e : GoError)
    (hfail : (TrainingInfo data w h).2 = some e) :
    (TrainingInfo data w h).1 = none ∧
    ((∃ e0, parseTraining data = .error e0 ∧ e = .wrap "parseTraining" e0) ∨
     (∃ s a d, parseTraining data = .ok (s, a, d) ∧
       ((a = "Бег" ∧ ∃ e0, (RunningSpentCalories s w h d).2 = some e0 ∧
           e = .wrap "RunningSpentCalories" e0) ∨
        (a = "Ходьба" ∧ ∃ e0, (WalkingSpentCalories s w h d).2 = some e0 ∧
           e = .wrap "WalkingSpentCalories" e0) ∨
        (a ≠ "Бег" ∧ a ≠ "Ходьба" ∧
           e = .new "неизвестный тип тренировки")))) := by
  unfold TrainingInfo at hfail ⊢
  rcases hp : parseTraining data with e1 | ⟨s, a, d⟩ <;> simp only [hp] at hfail ⊢
  · exact ⟨by trivial, .inl ⟨e1, by trivial,
      (Option.some.inj hfail).symm⟩⟩
  by_cases hb : a = "Бег"
  · rw [if_pos hb] at hfail ⊢
    rcases hr : RunningSpentCalories s w h d with ⟨cal, oe⟩
    rcases oe with _ | e0 <;> rw [hr] at hfail
    · exact absurd hfail (by simp)
    · refine ⟨by trivial, .inr ⟨s, a, d, by trivial, .inl ⟨hb, e0, ?_, ?_⟩⟩⟩
      · rw [hr]
      · exact (Option.some.inj hfail).symm
  by_cases hx : a = "Ходьба"
  · rw [if_neg hb, if_pos hx] at hfail ⊢
    rcases hw : WalkingSpentCalories s w h d with ⟨cal, oe⟩
    rcases oe with _ | e0 <;> rw [hw] at hfail
    · exact absurd hfail (by simp)
    · refine ⟨by trivial, .inr ⟨s, a, d, by trivial,
        .inr (.inl ⟨hx, e0, ?_, ?_⟩)⟩⟩
      · rw [hw]
      · exact (Option.some.inj hfail).symm
  · rw [if_neg hb, if_neg hx] at hfail ⊢
    exact ⟨by trivial, .inr ⟨s, a, d, by trivial, .inr (.inr
      ⟨hb, hx, (Option.some.inj hfail).symm⟩)⟩⟩

/-- Witness for the amended C3 at the unparsable record `"abc"`. -/
theorem claim_C3_error_structure_witness :
    (TrainingInfo "abc" 70 1.75).1 = none ∧
    ((∃ e0, parseTraining "abc" = .error e0 ∧
        GoError.wrap "parseTraining" (.new "bad data format") =
          .wrap "parseTraining" e0) ∨
     (∃ s a d, parseTraining "abc" = .ok (s, a, d) ∧
       ((a = "Бег" ∧ ∃ e0, (RunningSpentCalories s 70 1.75 d).2 = some e0 ∧
           GoError.wrap "parseTraining" (.new "bad data format") =
             .wrap "RunningSpentCalories" e0) ∨
        (a = "Ходьба" ∧ ∃ e0, (WalkingSpentCalories s 70 1.75 d).2 = some e0 ∧
           GoError.wrap "parseTraining" (.new "bad data format") =
             .wrap "WalkingSpentCalories" e0) ∨
        (a ≠ "Бег" ∧ a ≠ "Ходьба" ∧
           GoError.wrap "parseTraining" (.new "bad data format") =
             .new "неизвестный тип тренировки")))) :=
  claim_C3_error_structure "abc" 70 1.75
    (.wrap "parseTraining" (.new "bad data format"))
    (by unfold TrainingInfo; rw [parseTraining_abc])

/-- C5: after a successful parse, `TrainingInfo` dispatches on the activity
label: `"Бег"` selects `RunningSpentCalories`, `"Ходьба"` selects
`WalkingSpentCalories`, and any other label fails with the
unknown-activity error. -/
theorem claim_C5_dispatch (data : String) (w h : ℚ) (s : ℤ) (a : String)
    (d : ℤ) (hp : parseTraining data = .ok (s, a, d)) :
    (a = "Бег" →
      TrainingInfo data w h =
        (match RunningSpentCalories s w h d with
         | (_, some e) => (none, some (.wrap "RunningSpentCalories" e))
         | (cal, none) =>
           (some ⟨a, durationHours d, distance s h, meanSpeed s h d, cal⟩,
            none))) ∧
    (a = "Ходьба" →
      TrainingInfo data w h =
        (match WalkingSpentCalories s w h d with
         | (_, some e) => (none, some (.wrap "WalkingSpentCalories" e))
         | (cal, none) =>
           (some ⟨a, durationHours d, distance s h, meanSpeed s h d, cal⟩,
            none))) ∧
    (a ≠ "Бег" → a ≠ "Ходьба" →
      TrainingInfo data w h =
        (none, some (.new "неизвестный тип тренировки"))) := by
  unfold TrainingInfo
  simp only [hp]
  refine ⟨?_, ?_, ?_⟩
  · intro hb
    rw [if_pos hb]
  · intro hx
    by_cases hb : a = "Бег"
    · rw [hb] at hx
      exact absurd hx (by decide)
    · rw [if_neg hb, if_pos hx]
  · intro hb hx
    rw [if_neg hb, if_neg hx]

/-- Witness for C5: the record `"1000,Бег,1h"` dispatches to the running
formula, whose result at weight 70 and height 1.75 is 55.125 kcal. -/
theorem claim_C5_dispatch_witness :
    TrainingInfo "1000,Бег,1h" 70 1.75 =
      (match RunningSpentCalories 1000 70 1.75 3600000000000 with
       | (_, some e) => (none, some (.wrap "RunningSpentCalories" e))
       | (cal, none) =>
         (some ⟨"Бег", durationHours 3600000000000, distance 1000 1.75,
                meanSpeed 1000 1.75 3600000000000, cal⟩, none)) :=
  (claim_C5_dispatch "1000,Бег,1h" 70 1.75 1000 "Бег" 3600000000000
    parseTraining_run_1h).1 rfl

/-- C6: whenever parsing fails, or parsing succeeds and the walking-calorie
computation fails, `DayActionInfo` returns the empty result (the error is
only logged, never surfaced to the caller). -/
theorem claim_C6_swallow (data : String) (w h : ℚ) :
    ((∃ e, parsePackage data = .error e) → DayActionInfo data w h = none) ∧
    (∀ s d e, parsePackage data = .ok (s, d) →
      (WalkingSpentCalories s w h d).2 = some e →
      DayActionInfo data w h = none) := by
  constructor
  · rintro ⟨e, he⟩
    unfold DayActionInfo
    rw [he]
  · intro s d e hok hw
    unfold DayActionInfo
    simp only [hok]
    split
    · rfl
    · rcases hwc : WalkingSpentCalories s w h d with ⟨cal, oe⟩
      rw [hwc] at hw
      rcases oe with _ | e0
      · exact absurd hw (by simp)
      · simp only [hwc]

/-- Witness for C6 at the malformed record `"abc"`. -/
theorem claim_C6_swallow_witness : DayActionInfo "abc" 70 1.75 = none :=
  (claim_C6_swallow "abc" 70 1.75).1
    ⟨.new "bad data format",
     by unfold parsePackage
        norm_num [show splitComma "abc".data = ["abc".data] from by decide]⟩

/-- `parseTraining` fails exactly when the field count is not 3, the first
field is not an integer or is ≤ 0, or the duration field does not parse or
is ≤ 0. -/
lemma parseTraining_err_iff (data : String) :
    (∃ e, parseTraining data = .error e) ↔
      ((splitComma data.data).length ≠ 3 ∨
       goAtoi ((splitComma data.data).getD 0 []) = none ∨
       (∃ s, goAtoi ((splitComma data.data).getD 0 []) = some s ∧ s ≤ 0) ∨
       goParseDuration ((splitComma data.data).getD 2 []) = none ∨
       (∃ d, goParseDuration ((splitComma data.data).getD 2 []) = some d ∧
         d ≤ 0)) := by
  unfold parseTraining
  rcases hs : splitComma data.data with _ | ⟨p0, _ | ⟨p1, _ | ⟨p2, _ | ⟨p3, r⟩⟩⟩⟩ <;>
    simp only [hs]
  · simp
  · simp
  · simp
  · rcases ha : goAtoi p0 with _ | s
    · simp [ha]
    · by_cases hsle : s ≤ 0
      · simp [ha, hsle]
      · rcases hd : goParseDuration p2 with _ | d
        · simp [ha, hsle, hd]
        · by_cases hdle : d ≤ 0
          · simp [ha, hsle, hd, hdle]
          · simp [ha, hsle, hd, hdle]
  · simp

/-- A successful `parseTraining` returns exactly the parsed step count, the
verbatim middle field and the parsed duration. -/
lemma parseTraining_ok_shape {data : String} {s : ℤ} {a : String} {d : ℤ}
    (h : parseTraining data = .ok (s, a, d)) :
    (splitComma data.data).length = 3 ∧
    goAtoi ((splitComma data.data).getD 0 []) = some s ∧ 0 < s ∧
    a = String.mk ((splitComma data.data).getD 1 []) ∧
    goParseDuration ((splitComma data.data).getD 2 []) = some d ∧ 0 < d := by
  unfold parseTraining at h
  rcases hs : splitComma data.data with _ | ⟨p0, _ | ⟨p1, _ | ⟨p2, _ | ⟨p3, r⟩⟩⟩⟩ <;>
    simp only [hs] at h <;> try exact absurd h (by simp)
  rcases ha : goAtoi p0 with _ | s0 <;> simp only [ha] at h
  · exact absurd h (by simp)
  split at h
  · exact absurd h (by simp)
  rcases hd : goParseDuration p2 with _ | d0 <;> simp only [hd] at h
  · exact absurd h (by simp)
  split at h
  · exact absurd h (by simp)
  simp only [Except.ok.injEq, Prod.mk.injEq] at h
  obtain ⟨h1, h2, h3⟩ := h
  subst h1; subst h2; subst h3
  simp only [hs, List.getD, List.length_cons, List.length_nil]
  refine ⟨by trivial, ha, by omega, by trivial, hd, by omega⟩

/-- `parsePackage` fails exactly when the field count is not 2, the first
field is not an integer or is ≤ 0, or the duration field does not parse or
is ≤ 0. -/
lemma parsePackage_err_iff (data : String) :
    (∃ e, parsePackage data = .error e) ↔
      ((splitComma data.data).length ≠ 2 ∨
       goAtoi ((splitComma data.data).getD 0 []) = none ∨
       (∃ s, goAtoi ((splitComma data.data).getD 0 []) = some s ∧ s ≤ 0) ∨
       goParseDuration ((splitComma data.data).getD 1 []) = none ∨
       (∃ d, goParseDuration ((splitComma data.data).getD 1 []) = some d ∧
         d ≤ 0)) := by
  unfold parsePackage
  rcases hs : splitComma data.data with _ | ⟨p0, _ | ⟨p1, _ | ⟨p2, r⟩⟩⟩ <;>
    simp only [hs]
  · simp
  · simp
  · rcases ha : goAtoi p0 with _ | s
    · simp [ha]
    · by_cases hsle : s ≤ 0
      · simp [ha, hsle]
      · rcases hd : goParseDuration p1 with _ | d
        · simp [ha, hsle, hd]
        · by_cases hdle : d ≤ 0
          · simp [ha, hsle, hd, hdle]
          · simp [ha, hsle, hd, hdle]
  · simp

/-- A successful `parsePackage` returns exactly the parsed step count and
the parsed duration. -/
lemma parsePackage_ok_shape {data : String} {s : ℤ} {d : ℤ}
    (h : parsePackage data = .ok (s, d)) :
    (splitComma data.data).length = 2 ∧
    goAtoi ((splitComma data.data).getD 0 []) = some s ∧ 0 < s ∧
    goParseDuration ((splitComma data.data).getD 1 []) = some d ∧ 0 < d := by
  unfold parsePackage at h
  rcases hs : splitComma data.data with _ | ⟨p0, _ | ⟨p1, _ | ⟨p2, r⟩⟩⟩ <;>
    simp only [hs] at h <;> try exact absurd h (by simp)
  rcases ha : goAtoi p0 with _ | s0 <;> simp only [ha] at h
  · exact absurd h (by simp)
  split at h
  · exact absurd h (by simp)
  rcases hd : goParseDuration p1 with _ | d0 <;> simp only [hd] at h
  · exact absurd h (by simp)
  split at h
  · exact absurd h (by simp)
  simp only [Except.ok.injEq, Prod.mk.injEq] at h
  obtain ⟨h1, h2⟩ := h
  subst h1; subst h2
  simp only [hs, List.getD, List.length_cons, List.length_nil]
  refine ⟨by trivial, ha, by omega, hd, by omega⟩

/-- C4: each record parser fails exactly when the comma-separated field
count differs from its expected shape, the first field is not an integer
or is ≤ 0, or the duration field does not parse or parses to a span ≤ 0;
otherwise it returns exactly the parsed step count, (for the 3-field form)
the verbatim middle field, and the parsed duration. -/
theorem claim_C4_parser_contracts (data : String) :
    ((∃ e, parseTraining data = .error e) ↔
      ((splitComma data.data).length ≠ 3 ∨
       goAtoi ((splitComma data.data).getD 0 []) = none ∨
       (∃ s, goAtoi ((splitComma data.data).getD 0 []) = some s ∧ s ≤ 0) ∨
       goParseDuration ((splitComma data.data).getD 2 []) = none ∨
       (∃ d, goParseDuration ((splitComma data.data).getD 2 []) = some d ∧
         d ≤ 0))) ∧
    (∀ s a d, parseTraining data = .ok (s, a, d) →
      goAtoi ((splitComma data.data).getD 0 []) = some s ∧ 0 < s ∧
      a = String.mk ((splitComma data.data).getD 1 []) ∧
      goParseDuration ((splitComma data.data).getD 2 []) = some d ∧ 0 < d) ∧
    ((∃ e, parsePackage data = .error e) ↔
      ((splitComma data.data).length ≠ 2 ∨
       goAtoi ((splitComma data.data).getD 0 []) = none ∨
       (∃ s, goAtoi ((splitComma data.data).getD 0 []) = some s ∧ s ≤ 0) ∨
       goParseDuration ((splitComma data.data).getD 1 []) = none ∨
       (∃ d, goParseDuration ((splitComma data.data).getD 1 []) = some d ∧
         d ≤ 0))) ∧
    (∀ s d, parsePackage data = .ok (s, d) →
      goAtoi ((splitComma data.data).getD 0 []) = some s ∧ 0 < s ∧
      goParseDuration ((splitComma data.data).getD 1 []) = some d ∧ 0 < d) :=
  ⟨parseTraining_err_iff data,
   fun _ _ _ h => (parseTraining_ok_shape h).2,
   parsePackage_err_iff data,
   fun _ _ h => (parsePackage_ok_shape h).2⟩

/-- Witness for C4 at the records `"1000,Бег,1h"` and `"1000,1h"`. -/
theorem claim_C4_parser_contracts_witness :
    (goAtoi ((splitComma "1000,Бег,1h".data).getD 0 []) = some 1000 ∧
     (0 : ℤ) < 1000 ∧
     "Бег" = String.mk ((splitComma "1000,Бег,1h".data).getD 1 []) ∧
     goParseDuration ((splitComma "1000,Бег,1h".data).getD 2 []) =
       some 3600000000000 ∧ (0 : ℤ) < 3600000000000) ∧
    (goAtoi ((splitComma "1000,1h".data).getD 0 []) = some 1000 ∧
     (0 : ℤ) < 1000 ∧
     goParseDuration ((splitComma "1000,1h".data).getD 1 []) =
       some 3600000000000 ∧ (0 : ℤ) < 3600000000000) :=
  ⟨(claim_C4_parser_contracts "1000,Бег,1h").2.1 1000 "Бег" 3600000000000
     parseTraining_run_1h,
   (claim_C4_parser_contracts "1000,1h").2.2.2 1000 3600000000000
     parsePackage_1000_1h⟩

/-- C7: for every steps, height and duration, `meanSpeed` returns exactly 0
when the duration is ≤ 0, and otherwise equals `distance steps height`
divided by the duration expressed in hours. -/
theorem claim_C7_meanSpeed_guard (s : ℤ) (h : ℚ) (d : ℤ) :
    (d ≤ 0 → meanSpeed s h d = 0) ∧
    (0 < d → meanSpeed s h d = distance s h / durationHours d) := by
  constructor <;> intro hd
  · simp [meanSpeed, hd]
  · simp [meanSpeed, not_le.mpr hd]

/-- Witness for C7 at steps = 1000, height = 1.75, durations −1 ns and 1 h. -/
theorem claim_C7_meanSpeed_guard_witness :
    meanSpeed 1000 1.75 (-1) = 0 ∧
    meanSpeed 1000 1.75 3600000000000 =
      distance 1000 1.75 / durationHours 3600000000000 :=
  ⟨(claim_C7_meanSpeed_guard 1000 1.75 (-1)).1 (by norm_num),
   (claim_C7_meanSpeed_guard 1000 1.75 3600000000000).2 (by norm_num)⟩

/-- C8: for every steps > 0, weight > 0, height > 0 and duration > 0, both
calorie functions succeed and the running calories equal exactly twice the
walking calories. -/
theorem claim_C8_running_twice_walking (s : ℤ) (w h : ℚ) (d : ℤ)
    (hs : 0 < s) (hw : 0 < w) (hh : 0 < h) (hd : 0 < d) :
    (RunningSpentCalories s w h d).2 = none ∧
    (WalkingSpentCalories s w h d).2 = none ∧
    (RunningSpentCalories s w h d).1 = 2 * (WalkingSpentCalories s w h d).1 := by
  unfold RunningSpentCalories WalkingSpentCalories
  simp only [not_le.mpr hs, not_le.mpr hw, not_le.mpr hh, not_le.mpr hd,
    if_false]
  refine ⟨by simp, by simp, ?_⟩
  simp only [walkingCaloriesCoefficient]
  ring

/-- Witness for C8 at steps = 1000, weight = 70, height = 1.75,
duration = 1 h. -/
theorem claim_C8_running_twice_walking_witness :
    (RunningSpentCalories 1000 70 1.75 3600000000000).2 = none ∧
    (WalkingSpentCalories 1000 70 1.75 3600000000000).2 = none ∧
    (RunningSpentCalories 1000 70 1.75 3600000000000).1 =
      2 * (WalkingSpentCalories 1000 70 1.75 3600000000000).1 :=
  claim_C8_running_twice_walking 1000 70 1.75 3600000000000
    (by norm_num) (by norm_num) (by norm_num) (by norm_num)

/-- C9: at steps = 1000, weight = 70, height = 1.75 and a 10-minute
duration (600000000000 ns, the value `time.ParseDuration` gives for
`"10m"`), the walking computation succeeds with distance 0.7875 km, mean
speed 4.725 km/h and calories 27.5625 kcal (exact in the rational model). -/
theorem claim_C9_walking_fixed_value :
    goParseDuration "10m".data = some 600000000000 ∧
    distance 1000 1.75 = 0.7875 ∧
    meanSpeed 1000 1.75 600000000000 = 4.725 ∧
    WalkingSpentCalories 1000 70 1.75 600000000000 = (27.5625, none) := by
  refine ⟨by decide, ?_, ?_, ?_⟩ <;>
    norm_num [distance, meanSpeed, WalkingSpentCalories, durationHours,
      durationMinutes, mInKm, minInH, stepLengthCoefficient,
      walkingCaloriesCoefficient]

/-- C10: for every steps > 0, weight > 0, height > 0 and duration ≤ 0,
`WalkingSpentCalories` returns 0 calories with no error: the non-positive
duration is absorbed by the `meanSpeed` zero guard, not rejected. -/
theorem claim_C10_walking_nonpos_duration (s : ℤ) (w h : ℚ) (d : ℤ)
    (hs : 0 < s) (hw : 0 < w) (hh : 0 < h) (hd : d ≤ 0) :
    WalkingSpentCalories s w h d = (0, none) := by
  unfold WalkingSpentCalories
  simp [not_le.mpr hs, not_le.mpr hw, not_le.mpr hh, meanSpeed, hd]

/-- Witness for C10 at steps = 1000, weight = 70, height = 1.75,
duration = −1 ns. -/
theorem claim_C10_walking_nonpos_duration_witness :
    WalkingSpentCalories 1000 70 1.75 (-1) = (0, none) :=
  claim_C10_walking_nonpos_duration 1000 70 1.75 (-1)
    (by norm_num) (by norm_num) (by norm_num) (by norm_num)

end Tracker
